import Mathlib

/-!
Verification of the libportal request/response core: a shallow embedding of
src/libportal/account.c, email.c, file.c, screenshot.c and portal-private.h,
followed by theorems about the portal call lifecycle.
-/

namespace Libportal

/-- Bus name constant, from portal-private.h. -/
def PORTAL_BUS_NAME : String := "org.freedesktop.portal.Desktop"

/-- Portal object path constant, from portal-private.h. -/
def PORTAL_OBJECT_PATH : String := "/org/freedesktop/portal/desktop"

/-- Request path root constant, from portal-private.h (REQUEST_PATH_PREFIX). -/
def REQUEST_PATH_ROOT : String := "/org/freedesktop/portal/desktop/request/"

/-- Request interface constant, from portal-private.h. -/
def REQUEST_INTERFACE : String := "org.freedesktop.portal.Request"

/-- The six caller-facing actions of the four source files: account query
(account.c), compose email (email.c), open file and save file (file.c, the
save_mode flag), screenshot and pick color (screenshot.c, the color flag). -/
inductive Action
  | accountQuery
  | composeEmail
  | openFile
  | saveFile
  | screenshot
  | pickColor
deriving DecidableEq, Repr

/-- A GVariant value, to the extent the four source files inspect or build one:
a string, a boolean, a (ddd) color triple (components opaque to the library,
modelled as integers), an array of file-descriptor indices (type ah), or an
opaque variant such as a filter or choice description. -/
inductive GVal
  | vs (s : String)
  | vb (v : Bool)
  | vddd (x y z : Int)
  | vfds (fds : List Nat)
  | vopaque (tag : String)
deriving DecidableEq, Repr

/-- A GVariant a{sv} dictionary: an ordered key-value list. -/
abbrev VarDict := List (String × GVal)

/-- g_variant_lookup of "uri" with format "&s" in screenshot.c response_received:
find the first entry with the key, and succeed only when it holds a string. -/
def lookup_uri (ret : VarDict) : Option String :=
  match List.lookup "uri" ret with
  | some (GVal.vs s) => some s
  | _ => none

/-- g_variant_lookup of "color" with format "@(ddd)" in screenshot.c
response_received: find the first entry with the key, and succeed only when it
holds a (ddd) triple. -/
def lookup_color (ret : VarDict) : Option GVal :=
  match List.lookup "color" ret with
  | some (GVal.vddd x y z) => some (GVal.vddd x y z)
  | _ => none

/-- The value a completed call hands to the caller: the whole response
dictionary (account, file chooser), a plain boolean success (email), a color
triple (pick color) or a uri string (screenshot). -/
inductive CallResult
  | dict (d : VarDict)
  | ok
  | colorV (x y z : Int)
  | uri (s : String)
deriving DecidableEq, Repr

/-- The caller-visible outcome of a portal call: the payload of the
g_task_return_pointer / g_task_return_boolean / g_task_return_new_error call. -/
inductive Outcome
  | success (r : CallResult)
  | cancelled (msg : String)
  | failed (msg : String)
deriving DecidableEq, Repr

/-- The outcome branch of response_received in account.c (lines 92-97). -/
def account_response_received (code : Nat) (ret : VarDict) : Outcome :=
  if code = 0 then Outcome.success (CallResult.dict ret)
  else if code = 1 then Outcome.cancelled "Account canceled"
  else Outcome.failed "Account failed"

/-- The outcome branch of response_received in email.c (lines 112-117). -/
def email_response_received (code : Nat) (_ret : VarDict) : Outcome :=
  if code = 0 then Outcome.success CallResult.ok
  else if code = 1 then Outcome.cancelled "Email canceled"
  else Outcome.failed "Email failed"

/-- The outcome branch of response_received in file.c (lines 109-114),
shared by open file and save file. -/
def file_response_received (code : Nat) (ret : VarDict) : Outcome :=
  if code = 0 then Outcome.success (CallResult.dict ret)
  else if code = 1 then Outcome.cancelled "Filechooser canceled"
  else Outcome.failed "Filechooser failed"

/-- The outcome branch of response_received in screenshot.c (lines 91-115),
shared by screenshot and pick color via the color flag. -/
def screenshot_response_received (color : Bool) (code : Nat) (ret : VarDict) : Outcome :=
  if code = 0 then
    if color then
      match lookup_color ret with
      | some (GVal.vddd x y z) => Outcome.success (CallResult.colorV x y z)
      | _ => Outcome.failed "Color not received"
    else
      match lookup_uri ret with
      | some u => Outcome.success (CallResult.uri u)
      | none => Outcome.failed "Screenshot not received"
  else if code = 1 then Outcome.cancelled "Screenshot canceled"
  else Outcome.failed "Screenshot failed"

/-- Dispatch to the response handler of the source file owning each action. -/
def respond : Action → Nat → VarDict → Outcome
  | Action.accountQuery => account_response_received
  | Action.composeEmail => email_response_received
  | Action.openFile => file_response_received
  | Action.saveFile => file_response_received
  | Action.screenshot => screenshot_response_received false
  | Action.pickColor => screenshot_response_received true

/-- The action name each source file uses in its error messages. -/
def actionName : Action → String
  | Action.accountQuery => "Account"
  | Action.composeEmail => "Email"
  | Action.openFile => "Filechooser"
  | Action.saveFile => "Filechooser"
  | Action.screenshot => "Screenshot"
  | Action.pickColor => "Screenshot"

/-- The payload mapper of each action adapter, applied to a code-0 response:
account and file chooser surface the whole dictionary, email a plain success,
screenshot and pick color check their expected field and fail when absent. -/
def extract : Action → VarDict → Outcome
  | Action.accountQuery, ret => Outcome.success (CallResult.dict ret)
  | Action.composeEmail, _ => Outcome.success CallResult.ok
  | Action.openFile, ret => Outcome.success (CallResult.dict ret)
  | Action.saveFile, ret => Outcome.success (CallResult.dict ret)
  | Action.screenshot, ret =>
      match lookup_uri ret with
      | some u => Outcome.success (CallResult.uri u)
      | none => Outcome.failed "Screenshot not received"
  | Action.pickColor, ret =>
      match lookup_color ret with
      | some (GVal.vddd x y z) => Outcome.success (CallResult.colorV x y z)
      | _ => Outcome.failed "Color not received"

/-- The response-code policy as the spec states it: code 0 goes to the payload
mapper of the adapter, code 1 is Cancelled, anything else is a generic failure
naming the action. -/
def spec_response_policy (a : Action) (code : Nat) (ret : VarDict) : Outcome :=
  if code = 0 then extract a ret
  else if code = 1 then Outcome.cancelled (actionName a ++ " canceled")
  else Outcome.failed (actionName a ++ " failed")

/-- C1: for every action, the outcome of a received response is determined
solely by the numeric response code: code 0 hands the payload to the action
adapter, code 1 yields Cancelled, and every other code yields the generic
failure naming the action. The source response handlers coincide with the
uniform policy of the spec. -/
theorem C1_response_code_policy (a : Action) (code : Nat) (ret : VarDict) :
    respond a code ret = spec_response_policy a code ret := by
  cases a <;>
    simp only [respond, spec_response_policy, actionName, extract,
      account_response_received, email_response_received, file_response_received,
      screenshot_response_received] <;>
    split <;> simp_all

/-- Witness for C1 at a concrete input: a code-3 pick color response fails with
the generic screenshot message. -/
theorem C1_response_code_policy_witness :
    respond Action.pickColor 3 [] = Outcome.failed "Screenshot failed" := by
  have h := C1_response_code_policy Action.pickColor 3 []
  rw [h]
  rfl

/-- C6: a code-0 response whose payload lacks the field the adapter expects
(the color for pick color, the uri for screenshot) yields a Failed outcome,
never a success with a default value. -/
theorem C6_missing_field_fails (ret : VarDict) :
    (lookup_color ret = none →
      respond Action.pickColor 0 ret = Outcome.failed "Color not received") ∧
    (lookup_uri ret = none →
      respond Action.screenshot 0 ret = Outcome.failed "Screenshot not received") := by
  constructor
  · intro h
    simp [respond, screenshot_response_received, h]
  · intro h
    simp [respond, screenshot_response_received, h]

/-- Witness for C6: an empty payload with response code 0 makes pick color and
screenshot fail. -/
theorem C6_missing_field_fails_witness :
    (lookup_color [] = none ∧
      respond Action.pickColor 0 [] = Outcome.failed "Color not received") ∧
    (lookup_uri [] = none ∧
      respond Action.screenshot 0 [] = Outcome.failed "Screenshot not received") :=
  ⟨⟨rfl, (C6_missing_field_fails []).1 rfl⟩, ⟨rfl, (C6_missing_field_fails []).2 rfl⟩⟩

/-- The decimal digit characters of a natural number, most significant digit
first: the image of a nonnegative int under the %d directive of
g_strdup_printf. -/
def decimalChars (n : Nat) : List Char :=
  if n = 0 then [ '0' ] else ((Nat.digits 10 n).map Nat.digitChar).reverse

/-- The request token drawn by get_user_information, compose_email, open_file
and take_screenshot: g_strdup_printf of "portal%d" at the drawn random
integer. -/
def token_string (r : Nat) : String :=
  "portal" ++ String.mk (decimalChars r)

/-- The request path concatenation of the four call functions (for example
account.c line 146): the request path root, the bus sender, a slash, and the
token. -/
def request_path_of (sender : String) (r : Nat) : String :=
  REQUEST_PATH_ROOT ++ sender ++ "/" ++ token_string r

theorem digitChar_inj_lt10 (a b : Nat) (ha : a < 10) (hb : b < 10) :
    Nat.digitChar a = Nat.digitChar b → a = b := by
  interval_cases a <;> interval_cases b <;> decide

theorem map_digitChar_inj :
    ∀ l1 l2 : List Nat, (∀ x ∈ l1, x < 10) → (∀ x ∈ l2, x < 10) →
    l1.map Nat.digitChar = l2.map Nat.digitChar → l1 = l2 := by
  intro l1
  induction l1 with
  | nil =>
      intro l2 _ _ h
      cases l2 with
      | nil => rfl
      | cons b t2 => simp at h
  | cons a t ih =>
      intro l2 h1 h2 h
      cases l2 with
      | nil => simp at h
      | cons b t2 =>
          simp only [List.map_cons, List.cons.injEq] at h
          have hab : a = b :=
            digitChar_inj_lt10 a b (h1 a (by simp)) (h2 b (by simp)) h.1
          have htt : t = t2 :=
            ih t2 (fun x hx => h1 x (by simp [hx])) (fun x hx => h2 x (by simp [hx])) h.2
          rw [hab, htt]

theorem decimalChars_inj (m n : Nat) (h : decimalChars m = decimalChars n) : m = n := by
  have hlt10 : (1 : Nat) < 10 := by norm_num
  by_cases hm : m = 0 <;> by_cases hn : n = 0
  · rw [hm, hn]
  · exfalso
    rw [decimalChars, decimalChars, if_pos hm, if_neg hn] at h
    have h2 : (Nat.digits 10 n).map Nat.digitChar = [ '0' ] := by
      have := congrArg List.reverse h
      simpa using this.symm
    have h3 : Nat.digits 10 n = [0] := by
      apply map_digitChar_inj
      · intro x hx; exact Nat.digits_lt_base hlt10 hx
      · intro x hx; simp at hx; omega
      · simpa using h2
    have h4 := Nat.getLast_digit_ne_zero 10 hn
    rw [List.getLast_congr _ _ h3] at h4
    · simp at h4
    · simp
  · exfalso
    rw [decimalChars, decimalChars, if_neg hm, if_pos hn] at h
    have h2 : (Nat.digits 10 m).map Nat.digitChar = [ '0' ] := by
      have := congrArg List.reverse h
      simpa using this
    have h3 : Nat.digits 10 m = [0] := by
      apply map_digitChar_inj
      · intro x hx; exact Nat.digits_lt_base hlt10 hx
      · intro x hx; simp at hx; omega
      · simpa using h2
    have h4 := Nat.getLast_digit_ne_zero 10 hm
    rw [List.getLast_congr _ _ h3] at h4
    · simp at h4
    · simp
  · rw [decimalChars, decimalChars, if_neg hm, if_neg hn] at h
    have h2 : (Nat.digits 10 m).map Nat.digitChar = (Nat.digits 10 n).map Nat.digitChar :=
      List.reverse_injective h
    have h3 : Nat.digits 10 m = Nat.digits 10 n := by
      apply map_digitChar_inj _ _ _ _ h2 <;>
        intro x hx <;> exact Nat.digits_lt_base hlt10 hx
    exact Nat.digits_inj_iff.mp h3

theorem token_string_inj (r1 r2 : Nat) (h : token_string r1 = token_string r2) :
    r1 = r2 := by
  have hd : "portal".data ++ decimalChars r1 = "portal".data ++ decimalChars r2 :=
    congrArg String.data h
  exact decimalChars_inj r1 r2 (List.append_cancel_left hd)

theorem request_path_inj (sender : String) (r1 r2 : Nat)
    (h : request_path_of sender r1 = request_path_of sender r2) : r1 = r2 := by
  have hd := congrArg String.data h
  simp only [request_path_of, token_string, String.data_append, List.append_assoc] at hd
  exact decimalChars_inj r1 r2
    (List.append_cancel_left (List.append_cancel_left (List.append_cancel_left
      (List.append_cancel_left hd))))

/-- C8: two in-flight portal calls with distinct random draws have distinct
request tokens and distinct request object paths, and each path is derived
deterministically as the fixed request path root, the bus identity of the
caller, a slash, and the token of the call. -/
theorem C8_token_path_unique (sender : String) (r1 r2 : Nat) (h : r1 ≠ r2) :
    token_string r1 ≠ token_string r2 ∧
    request_path_of sender r1 ≠ request_path_of sender r2 ∧
    request_path_of sender r1 = REQUEST_PATH_ROOT ++ sender ++ "/" ++ token_string r1 := by
  refine ⟨?_, ?_, rfl⟩
  · intro he; exact h (token_string_inj r1 r2 he)
  · intro he; exact h (request_path_inj sender r1 r2 he)

/-- Witness for C8 at the draws 0 and 1. -/
theorem C8_token_path_unique_witness :
    token_string 0 ≠ token_string 1 ∧
    request_path_of ":1.42" 0 ≠ request_path_of ":1.42" 1 ∧
    request_path_of ":1.42" 0 =
      REQUEST_PATH_ROOT ++ ":1.42" ++ "/" ++ token_string 0 :=
  C8_token_path_unique ":1.42" 0 1 (by decide)

/-- The caller-supplied per-action fields: one flat record covering the
fields of AccountCall, EmailCall, FileCall and ScreenshotCall that feed the
options dictionary of the remote invocation. -/
structure Args where
  reason : String
  address : Option String
  subject : Option String
  body : Option String
  attachments : Option (List String)
  title : String
  modal : Bool
  multiple : Bool
  current_name : Option String
  current_folder : Option String
  current_file : Option String
  filters : Option GVal
  choices : Option GVal
  interactive : Bool
deriving DecidableEq, Repr

/-- The descriptor indices collected into the fd list by compose_email
(email.c lines 196-218): every attachment the system can open is appended to
the fd list and contributes its index there; the rest are skipped with a
warning. -/
def attach_fds (files : List String) (openable : String → Bool) : List Nat :=
  List.range (files.filter openable).length

/-- The options dictionary each call function builds, in source order:
account.c lines 162-164, email.c lines 183-221, file.c lines 179-193,
screenshot.c lines 180-186. -/
def build_options (a : Action) (args : Args) (openable : String → Bool)
    (token : String) : VarDict :=
  match a with
  | Action.accountQuery =>
      [("handle_token", GVal.vs token), ("reason", GVal.vs args.reason)]
  | Action.composeEmail =>
      [("handle_token", GVal.vs token)]
      ++ (match args.address with | some v => [("address", GVal.vs v)] | none => [])
      ++ (match args.subject with | some v => [("subject", GVal.vs v)] | none => [])
      ++ (match args.body with | some v => [("body", GVal.vs v)] | none => [])
      ++ (match args.attachments with
          | some files => [("attachment_fds", GVal.vfds (attach_fds files openable))]
          | none => [])
  | Action.openFile =>
      [("handle_token", GVal.vs token), ("modal", GVal.vb args.modal)]
      ++ (if args.multiple then [("multiple", GVal.vb args.multiple)] else [])
      ++ (match args.filters with | some v => [("filters", v)] | none => [])
      ++ (match args.choices with | some v => [("choices", v)] | none => [])
      ++ (match args.current_name with | some v => [("current_name", GVal.vs v)] | none => [])
      ++ (match args.current_folder with | some v => [("current_folder", GVal.vs v)] | none => [])
      ++ (match args.current_file with | some v => [("current_file", GVal.vs v)] | none => [])
  | Action.saveFile =>
      [("handle_token", GVal.vs token), ("modal", GVal.vb args.modal)]
      ++ (if args.multiple then [("multiple", GVal.vb args.multiple)] else [])
      ++ (match args.filters with | some v => [("filters", v)] | none => [])
      ++ (match args.choices with | some v => [("choices", v)] | none => [])
      ++ (match args.current_name with | some v => [("current_name", GVal.vs v)] | none => [])
      ++ (match args.current_folder with | some v => [("current_folder", GVal.vs v)] | none => [])
      ++ (match args.current_file with | some v => [("current_file", GVal.vs v)] | none => [])
  | Action.screenshot =>
      [("handle_token", GVal.vs token), ("modal", GVal.vb args.modal),
       ("interactive", GVal.vb args.interactive)]
  | Action.pickColor =>
      [("handle_token", GVal.vs token)]

/-- Counterexample to C9 as stated: a compose email call whose caller supplied
an empty but non-null attachment array still gets an attachment_fds field in
its options, holding an empty descriptor array, because email.c line 191 only
tests the array for null-ness, not for emptiness. -/
theorem C9_empty_attachment_list_encoded :
    ("attachment_fds", GVal.vfds []) ∈
      build_options Action.composeEmail
        ⟨"", none, none, none, some [], "", false, false, none, none, none, none, none, false⟩
        (fun _ => true) "portal0" := by
  simp [build_options, attach_fds]

/-- C9 amended: optional compose email fields the caller left unsupplied
(null) are omitted from the options mapping entirely, and the attachment_fds
field is omitted exactly when the attachment array itself is absent — a
supplied but empty array is still encoded, as an empty descriptor array. -/
theorem C9_unsupplied_fields_omitted (args : Args) (op : String → Bool) (tok : String) :
    (args.address = none →
      "address" ∉ (build_options Action.composeEmail args op tok).map Prod.fst) ∧
    (args.subject = none →
      "subject" ∉ (build_options Action.composeEmail args op tok).map Prod.fst) ∧
    (args.body = none →
      "body" ∉ (build_options Action.composeEmail args op tok).map Prod.fst) ∧
    (args.attachments = none →
      "attachment_fds" ∉ (build_options Action.composeEmail args op tok).map Prod.fst) ∧
    (∀ files, args.attachments = some files →
      ("attachment_fds", GVal.vfds (attach_fds files op)) ∈
        build_options Action.composeEmail args op tok) := by
  obtain ⟨reason, address, subject, body, attachments, rest⟩ := args
  cases address <;> cases subject <;> cases body <;> cases attachments <;>
    simp [build_options]

/-- Witness for C9 amended: a compose email call supplying nothing optional
has none of the four optional keys in its options. -/
theorem C9_unsupplied_fields_omitted_witness :
    "address" ∉ (build_options Action.composeEmail
      ⟨"", none, none, none, none, "", false, false, none, none, none, none, none, false⟩
      (fun _ => true) "portal0").map Prod.fst ∧
    "attachment_fds" ∉ (build_options Action.composeEmail
      ⟨"", none, none, none, none, "", false, false, none, none, none, none, none, false⟩
      (fun _ => true) "portal0").map Prod.fst := by
  have h := C9_unsupplied_fields_omitted
    ⟨"", none, none, none, none, "", false, false, none, none, none, none, none, false⟩
    (fun _ => true) "portal0"
  exact ⟨h.1 rfl, h.2.2.2.1 rfl⟩

/-- The observable micro-events of one portal call, in the order the source
emits them. -/
inductive Ev
  | exportParent
  | allocIdentity
  | subscribeListener
  | armBridge
  | sendInvocation
  | disarmBridge
  | returnOutcome (o : Outcome)
  | unexportParent
  | unsubscribeListener
  | closeSent
  | signalCompletion
deriving DecidableEq, Repr

/-- The call record: the fields of AccountCall, EmailCall, FileCall and
ScreenshotCall that the lifecycle reads or writes, plus flags standing for
facts the C heap carries implicitly: whether the entry point already ran,
whether a parent export is outstanding, whether the record was freed, and
whether the cancellable has already fired its one cancelled signal. -/
structure CallState where
  action : Action
  args : Args
  sender : String
  parentPresent : Bool
  parent_handle : Option String
  request_path : Option String
  subscribed_path : Option String
  sent_options : Option VarDict
  signal_id : Bool
  cancelled_id : Bool
  hasCancellable : Bool
  started : Bool
  exporting : Bool
  sent : Bool
  outcome : Option Outcome
  freed : Bool
  cancelRequested : Bool
deriving DecidableEq, Repr

/-- Modelled from the spec: _xdp_parent_copy is declared in utils-private.h,
which is not among the sources; per the spec the copy of an absent parent
reference is itself absent, and the save file entry path then dereferences
that absent reference unconditionally. -/
def xdp_parent_copy (parent : Option Unit) : Option Unit := parent

/-- The entry point struct setup: xdp_portal_get_user_information (account.c
207-214), xdp_portal_compose_email (email.c 271-281), xdp_portal_open_file
(file.c 265-276) and xdp_portal_take_screenshot / xdp_portal_pick_color
(screenshot.c 230-239 and 290-297) test the parent for null and substitute an
empty parent handle when it is absent; xdp_portal_save_file (file.c 350-361)
copies the parent unconditionally and never substitutes the empty handle. -/
def mk_call (a : Action) (parent : Option Unit) (hasCancellable : Bool)
    (sender : String) (args : Args) : CallState :=
  if a = Action.saveFile then
    { action := a, args := args, sender := sender,
      parentPresent := (xdp_parent_copy parent).isSome,
      parent_handle := none,
      request_path := none, subscribed_path := none, sent_options := none,
      signal_id := false, cancelled_id := false,
      hasCancellable := hasCancellable,
      started := false, exporting := false, sent := false,
      outcome := none, freed := false, cancelRequested := false }
  else
    match parent with
    | some p =>
        { action := a, args := args, sender := sender,
          parentPresent := (xdp_parent_copy (some p)).isSome,
          parent_handle := none,
          request_path := none, subscribed_path := none, sent_options := none,
          signal_id := false, cancelled_id := false,
          hasCancellable := hasCancellable,
          started := false, exporting := false, sent := false,
          outcome := none, freed := false, cancelRequested := false }
    | none =>
        { action := a, args := args, sender := sender,
          parentPresent := false,
          parent_handle := some "",
          request_path := none, subscribed_path := none, sent_options := none,
          signal_id := false, cancelled_id := false,
          hasCancellable := hasCancellable,
          started := false, exporting := false, sent := false,
          outcome := none, freed := false, cancelRequested := false }

/-- The shared body of get_user_information (account.c 133-178), compose_email
(email.c 153-236), open_file (file.c 150-207) and take_screenshot
(screenshot.c 151-200): while the parent handle is unresolved, dereference the
parent record and export it, suspending the call — undefined (none) when that
record is absent, which the save file path with no caller-supplied parent
reaches; once the handle is resolved, draw the token, derive the request
path, subscribe the response listener on it, connect the cancelled handler
when the caller supplied a cancellable, and send the remote invocation
carrying the options. -/
def do_call (op : String → Bool) (st : CallState) (r : Nat) :
    Option (CallState × List Ev) :=
  match st.parent_handle with
  | none =>
      if st.parentPresent then
        some ({ st with exporting := true }, [Ev.exportParent])
      else none
  | some _ =>
      let path := request_path_of st.sender r
      let armed := st.hasCancellable
      let opts := build_options st.action st.args op (token_string r)
      some ({ st with
                request_path := some path,
                subscribed_path := some path,
                signal_id := true,
                cancelled_id := armed,
                sent := true,
                sent_options := some opts },
            [Ev.allocIdentity, Ev.subscribeListener]
            ++ (if armed then [Ev.armBridge] else []) ++ [Ev.sendInvocation])

/-- The observable teardown of account_call_free (account.c 45-69) and its
three clones, in source order: unexport the parent when present, unsubscribe
the response listener when subscribed, disconnect the cancelled handler when
still connected. -/
def call_free_events (parentPresent signalActive bridgeArmed : Bool) : List Ev :=
  (if parentPresent then [Ev.unexportParent] else [])
  ++ (if signalActive then [Ev.unsubscribeListener] else [])
  ++ (if bridgeArmed then [Ev.disarmBridge] else [])

/-- response_received (account.c 71-100 and its three clones): disconnect the
cancelled handler first when it is connected and zero its id, return the
mapped outcome on the task, then free the call record. The caller-visible
completion comes last: g_task_return dispatches the callback through an idle
source, so it runs only after this handler, and hence the teardown, has
finished. -/
def response_received_step (st : CallState) (code : Nat) (ret : VarDict) :
    CallState × List Ev :=
  let pre := if st.cancelled_id then [Ev.disarmBridge] else []
  let o := respond st.action code ret
  let ev := pre ++ [Ev.returnOutcome o]
    ++ call_free_events st.parentPresent st.signal_id false
    ++ [Ev.signalCompletion]
  ({ st with cancelled_id := false, signal_id := false,
             outcome := some o, freed := true }, ev)

/-- The external stimuli driving one call: the entry point running, the parent
export completing with a handle (parent_exported), the Response signal
arriving (response_received), and the caller cancelling its cancellable. The
random token draws of the two stimuli that can reach the allocation ride on
the labels. -/
inductive Label
  | invoke (r : Nat)
  | exported (h : String) (r : Nat)
  | deliver (code : Nat) (ret : VarDict)
  | cancel
deriving DecidableEq, Repr

/-- One stimulus. invoke runs once and enters the call body; exported resumes
a pending export and re-enters the call body; deliver fires the response
handler, possible only while the listener subscription is live; cancel fires
the cancellable at most once — cancelled_cb, reached only while the handler
is connected (cancelled_id set), sends Close to the request path and nothing
else. -/
def step (op : String → Bool) (st : CallState) (l : Label) :
    Option (CallState × List Ev) :=
  match l with
  | Label.invoke r =>
      if st.started then none
      else do_call op { st with started := true } r
  | Label.exported h r =>
      if st.exporting ∧ ¬st.freed then
        do_call op { st with parent_handle := some h, exporting := false } r
      else none
  | Label.deliver code ret =>
      if st.signal_id ∧ ¬st.freed then some (response_received_step st code ret)
      else none
  | Label.cancel =>
      if st.hasCancellable ∧ ¬st.cancelRequested then
        some ({ st with cancelRequested := true },
              if st.cancelled_id then [Ev.closeSent] else [])
      else none

/-- Drive one call record through a list of stimuli, collecting the emitted
events; an undefined step (the dereference of an absent parent) collapses the
whole run. -/
def run (op : String → Bool) (st : CallState) : List Label → Option (CallState × List Ev)
  | [] => some (st, [])
  | l :: ls =>
      match step op st l with
      | none => none
      | some (st1, ev1) =>
          match run op st1 ls with
          | none => none
          | some (st2, ev2) => some (st2, ev1 ++ ev2)

/-- Facts every reachable call record satisfies: a written outcome means the
bridge has been disarmed and the record freed, an allocated request path
means the parent handle was resolved, and a freed record holds no live
subscription or bridge. -/
def Inv (st : CallState) : Prop :=
  (st.outcome.isSome = true → st.cancelled_id = false)
  ∧ (st.request_path.isSome = true → st.parent_handle.isSome = true)
  ∧ (st.freed = true → st.signal_id = false ∧ st.cancelled_id = false)
  ∧ (st.outcome.isSome = true → st.freed = true)
  ∧ (st.freed = true → st.started = true)
  ∧ (st.signal_id = true → st.started = true)
  ∧ (st.exporting = true → st.started = true)

theorem inv_mk_call (a : Action) (parent : Option Unit) (hc : Bool)
    (sender : String) (args : Args) : Inv (mk_call a parent hc sender args) := by
  unfold Inv mk_call xdp_parent_copy
  split
  · simp
  · cases parent <;> simp

theorem inv_step (op : String → Bool) (st st1 : CallState) (l : Label)
    (ev : List Ev) (hinv : Inv st) (h : step op st l = some (st1, ev)) : Inv st1 := by
  obtain ⟨h1, h2, h3, h4, h5, h6, h7⟩ := hinv
  cases l with
  | invoke r =>
      simp only [step] at h
      split at h
      · exact absurd h (by simp)
      · unfold do_call at h
        split at h
        · split at h
          · simp only [Option.some.injEq, Prod.mk.injEq] at h
            obtain ⟨hst, _⟩ := h
            subst hst
            unfold Inv
            simp_all
          · exact absurd h (by simp)
        · simp only [Option.some.injEq, Prod.mk.injEq] at h
          obtain ⟨hst, _⟩ := h
          subst hst
          unfold Inv
          simp_all
  | exported hnd r =>
      simp only [step] at h
      split at h
      · unfold do_call at h
        split at h
        · split at h
          · simp only [Option.some.injEq, Prod.mk.injEq] at h
            obtain ⟨hst, _⟩ := h
            subst hst
            unfold Inv
            simp_all
          · exact absurd h (by simp)
        · simp only [Option.some.injEq, Prod.mk.injEq] at h
          obtain ⟨hst, _⟩ := h
          subst hst
          unfold Inv
          simp_all
      · exact absurd h (by simp)
  | deliver code ret =>
      simp only [step] at h
      split at h
      · simp only [Option.some.injEq] at h
        rw [Prod.ext_iff] at h
        obtain ⟨hst, _⟩ := h
        rw [response_received_step] at hst
        subst hst
        unfold Inv
        simp_all
      · exact absurd h (by simp)
  | cancel =>
      simp only [step] at h
      split at h
      · simp only [Option.some.injEq, Prod.mk.injEq] at h
        obtain ⟨hst, _⟩ := h
        subst hst
        unfold Inv
        simp_all
      · exact absurd h (by simp)

theorem inv_run (op : String → Bool) (st st2 : CallState) (ls : List Label)
    (ev : List Ev) (hinv : Inv st) (h : run op st ls = some (st2, ev)) : Inv st2 := by
  induction ls generalizing st ev with
  | nil =>
      simp only [run, Option.some.injEq, Prod.mk.injEq] at h
      rw [← h.1]
      exact hinv
  | cons l ls ih =>
      simp only [run] at h
      split at h
      · exact absurd h (by simp)
      · rename_i st1 ev1 heq
        split at h
        · exact absurd h (by simp)
        · rename_i st3 ev2 heq2
          simp only [Option.some.injEq, Prod.mk.injEq] at h
          obtain ⟨hst, hev⟩ := h
          subst hst
          exact ih st1 ev2 (inv_step op st st1 l ev1 hinv heq) heq2

/-- An event is one of the three teardown actions: disarming the bridge,
unsubscribing the listener, releasing the parent handle. -/
def isTeardown : Ev → Bool
  | Ev.disarmBridge => true
  | Ev.unexportParent => true
  | Ev.unsubscribeListener => true
  | _ => false

/-- Empty argument record used by the concrete probe runs below. -/
def args0 : Args :=
  ⟨"", none, none, none, none, "", false, false, none, none, none, none, none, false⟩

/-- Counterexample to C2 as stated: in the account call driven to a delivered
response, the parent handle is released before the listener is unsubscribed
(account_call_free unexports the parent first, account.c lines 48-56), so the
claimed reverse-acquisition teardown order — bridge, listener, parent — does
not hold on the emitted event trace. -/
theorem C2_reverse_order_counterexample :
    (run (fun _ => true) (mk_call Action.accountQuery (some ()) true ":1.7" args0)
        [Label.invoke 0, Label.exported "wl:1" 0, Label.deliver 0 []]).map
      (fun p => (decide (Ev.unexportParent ∈ p.2), decide (Ev.unsubscribeListener ∈ p.2),
                 decide (List.Sublist [Ev.unsubscribeListener, Ev.unexportParent] p.2)))
    = some (true, true, false) := by decide

/-- C2 amended: on every outcome branch of the response handler the teardown
is unconditional and identical — the bridge is disarmed first, then the
parent handle released, then the listener unsubscribed (the source releases
the parent before the listener, not in strict reverse-acquisition order) —
and the caller-visible completion, which g_task defers to an idle dispatch,
comes after all of it. -/
theorem C2_teardown_uniform (st : CallState) (code code2 : Nat) (ret ret2 : VarDict)
    (hb : st.cancelled_id = true) (hp : st.parentPresent = true)
    (hs : st.signal_id = true) :
    ((response_received_step st code ret).2.filter isTeardown =
      (response_received_step st code2 ret2).2.filter isTeardown) ∧
    (response_received_step st code ret).2.filter isTeardown =
      [Ev.disarmBridge, Ev.unexportParent, Ev.unsubscribeListener] ∧
    (response_received_step st code ret).2.getLast? = some Ev.signalCompletion ∧
    (response_received_step st code ret).1.freed = true ∧
    (response_received_step st code ret).1.outcome = some (respond st.action code ret) := by
  unfold response_received_step call_free_events
  rw [hb, hp, hs]
  simp [isTeardown]

/-- A call record holding every resource, to probe the teardown trace. -/
def teardown_probe_state : CallState :=
  ⟨Action.accountQuery, args0, ":1.7", true, some "wl:1",
   some "/org/freedesktop/portal/desktop/request/:1.7/portal0",
   some "/org/freedesktop/portal/desktop/request/:1.7/portal0",
   some [("handle_token", GVal.vs "portal0"), ("reason", GVal.vs "")],
   true, true, true, true, false, true, none, false, false⟩

/-- Witness for C2 amended at a concrete fully-armed call record. -/
theorem C2_teardown_uniform_witness :
    (response_received_step teardown_probe_state 0 []).2.filter isTeardown =
      [Ev.disarmBridge, Ev.unexportParent, Ev.unsubscribeListener] ∧
    (response_received_step teardown_probe_state 0 []).2.getLast? =
      some Ev.signalCompletion :=
  ⟨(C2_teardown_uniform teardown_probe_state 0 2 [] [] rfl rfl rfl).2.1,
   (C2_teardown_uniform teardown_probe_state 0 2 [] [] rfl rfl rfl).2.2.1⟩

theorem allocIdentity_not_in_response (st : CallState) (code : Nat) (ret : VarDict) :
    Ev.allocIdentity ∉ (response_received_step st code ret).2 := by
  unfold response_received_step call_free_events
  split_ifs <;> simp

theorem sendInvocation_not_in_response (st : CallState) (code : Nat) (ret : VarDict) :
    Ev.sendInvocation ∉ (response_received_step st code ret).2 := by
  unfold response_received_step call_free_events
  split_ifs <;> simp

/-- C3: the call moves through its phases in strict order. On any step, the
token and request path are allocated only with the parent handle resolved;
whenever the remote invocation is sent, the listener subscription precedes it
on the emitted trace, and so does the arming of the bridge whenever the
caller supplied a cancellable, in the order subscribe, arm, send; and no
stimulus other than a delivered response writes the outcome — in particular
the send itself, whose transport reply the source discards (null callback),
leaves the outcome untouched. -/
theorem C3_strict_phase_order (op : String → Bool) (st st1 : CallState) (l : Label)
    (ev : List Ev) (h : step op st l = some (st1, ev)) :
    (Ev.allocIdentity ∈ ev →
      st1.parent_handle.isSome = true ∧ st1.request_path.isSome = true) ∧
    (Ev.sendInvocation ∈ ev →
      List.Sublist [Ev.subscribeListener, Ev.sendInvocation] ev ∧
      (st.hasCancellable = true →
        List.Sublist [Ev.subscribeListener, Ev.armBridge, Ev.sendInvocation] ev)) ∧
    ((∀ code ret, l ≠ Label.deliver code ret) → st1.outcome = st.outcome) := by
  cases l with
  | invoke r =>
      simp only [step] at h
      split at h
      · exact absurd h (by simp)
      · unfold do_call at h
        split at h
        · split at h
          · simp only [Option.some.injEq, Prod.mk.injEq] at h
            obtain ⟨hst, hev⟩ := h
            subst hst
            subst hev
            simp
          · exact absurd h (by simp)
        · simp only [Option.some.injEq, Prod.mk.injEq] at h
          obtain ⟨hst, hev⟩ := h
          subst hst
          subst hev
          cases hc : st.hasCancellable <;> simp_all
  | exported hnd r =>
      simp only [step] at h
      split at h
      · unfold do_call at h
        simp only [Option.some.injEq, Prod.mk.injEq] at h
        obtain ⟨hst, hev⟩ := h
        subst hst
        subst hev
        cases hc : st.hasCancellable <;> simp_all
      · exact absurd h (by simp)
  | deliver code ret =>
      simp only [step] at h
      split at h
      · simp only [Option.some.injEq] at h
        have hev : (response_received_step st code ret).2 = ev := congrArg Prod.snd h
        refine ⟨?_, ?_, ?_⟩
        · intro hmem
          rw [← hev] at hmem
          exact absurd hmem (allocIdentity_not_in_response st code ret)
        · intro hmem
          rw [← hev] at hmem
          exact absurd hmem (sendInvocation_not_in_response st code ret)
        · intro hne
          exact absurd rfl (hne code ret)
      · exact absurd h (by simp)
  | cancel =>
      simp only [step] at h
      split at h
      · simp only [Option.some.injEq, Prod.mk.injEq] at h
        obtain ⟨hst, hev⟩ := h
        subst hst
        subst hev
        cases hb : st.cancelled_id <;> simp_all
      · exact absurd h (by simp)

/-- The call record after the issuing step of a no-parent account call with a
cancellable, at draw 0. -/
def c3_issue_state : CallState :=
  ⟨Action.accountQuery, args0, ":1.7", false, some "",
   some "/org/freedesktop/portal/desktop/request/:1.7/portal0",
   some "/org/freedesktop/portal/desktop/request/:1.7/portal0",
   some [("handle_token", GVal.vs "portal0"), ("reason", GVal.vs "")],
   true, true, true, true, false, true, none, false, false⟩

/-- Witness for C3 at the issuing step of a concrete account call. -/
theorem C3_strict_phase_order_witness :
    List.Sublist [Ev.subscribeListener, Ev.armBridge, Ev.sendInvocation]
      [Ev.allocIdentity, Ev.subscribeListener, Ev.armBridge, Ev.sendInvocation] ∧
    c3_issue_state.parent_handle.isSome = true ∧
    c3_issue_state.outcome = (mk_call Action.accountQuery none true ":1.7" args0).outcome := by
  have h := C3_strict_phase_order (fun _ => true)
    (mk_call Action.accountQuery none true ":1.7" args0) c3_issue_state
    (Label.invoke 0)
    [Ev.allocIdentity, Ev.subscribeListener, Ev.armBridge, Ev.sendInvocation]
    (by decide)
  exact ⟨(h.2.1 (by decide)).2 (by decide), (h.1 (by decide)).1,
         h.2.2 (fun code ret hne => by simp at hne)⟩

/-- C4: once a response has been delivered, cancellation has no observable
effect. On any reachable call record with a written outcome the bridge is
already disconnected, a cancel stimulus emits nothing — in particular no
Close — and leaves the outcome as the response dictated; and within the
response handler the bridge is disarmed strictly before the outcome is
returned. -/
theorem C4_cancel_after_response_noop (op : String → Bool) (a : Action)
    (parent : Option Unit) (hc : Bool) (sender : String) (args : Args)
    (ls : List Label) (st : CallState) (ev : List Ev) (o : Outcome)
    (hrun : run op (mk_call a parent hc sender args) ls = some (st, ev))
    (hout : st.outcome = some o) :
    st.cancelled_id = false ∧
    (∀ st2 ev2, step op st Label.cancel = some (st2, ev2) →
      st2.outcome = some o ∧ Ev.closeSent ∉ ev2) ∧
    (∀ st3 : CallState, ∀ code : Nat, ∀ ret : VarDict, st3.cancelled_id = true →
      List.Sublist [Ev.disarmBridge, Ev.returnOutcome (respond st3.action code ret)]
        (response_received_step st3 code ret).2) := by
  have hinv := inv_run op (mk_call a parent hc sender args) st ls ev
    (inv_mk_call a parent hc sender args) hrun
  have hdis : st.cancelled_id = false := hinv.1 (by rw [hout]; rfl)
  refine ⟨hdis, ?_, ?_⟩
  · intro st2 ev2 h
    simp only [step] at h
    split at h
    · simp only [Option.some.injEq, Prod.mk.injEq] at h
      obtain ⟨hst, hev⟩ := h
      subst hst
      rw [hdis] at hev
      simp at hev
      subst hev
      exact ⟨hout, by simp⟩
    · exact absurd h (by simp)
  · intro st3 code ret hb
    unfold response_received_step
    rw [hb]
    simp only [if_true]
    exact ((List.nil_sublist _).cons₂ _).cons₂ _

/-- The final record of a no-parent account call with a cancellable, driven
to a code-0 response at draw 0. -/
def c4_final_state : CallState :=
  ⟨Action.accountQuery, args0, ":1.7", false, some "",
   some "/org/freedesktop/portal/desktop/request/:1.7/portal0",
   some "/org/freedesktop/portal/desktop/request/:1.7/portal0",
   some [("handle_token", GVal.vs "portal0"), ("reason", GVal.vs "")],
   false, false, true, true, false, true,
   some (Outcome.success (CallResult.dict [])), true, false⟩

/-- Witness for C4 at a concrete completed call record. -/
theorem C4_cancel_after_response_noop_witness :
    c4_final_state.cancelled_id = false ∧
    ({ c4_final_state with cancelRequested := true }.outcome =
        some (Outcome.success (CallResult.dict [])) ∧
      Ev.closeSent ∉ ([] : List Ev)) := by
  have h := C4_cancel_after_response_noop (fun _ => true) Action.accountQuery none
    true ":1.7" args0 [Label.invoke 0, Label.deliver 0 []] c4_final_state
    [Ev.allocIdentity, Ev.subscribeListener, Ev.armBridge, Ev.sendInvocation,
     Ev.disarmBridge, Ev.returnOutcome (Outcome.success (CallResult.dict [])),
     Ev.unsubscribeListener, Ev.signalCompletion]
    (Outcome.success (CallResult.dict [])) (by decide) rfl
  exact ⟨h.1, h.2.1 { c4_final_state with cancelRequested := true } [] (by decide)⟩

/-- C5 as specified fails on the source: a cancellable cancelled while the
parent export is pending — strictly before any invocation is sent — triggers
nothing, because the cancelled handler is connected only inside the issuing
step; when the export later resolves, the invocation is sent anyway, no
Close ever goes out, no Cancelled completion is returned, and the outcome
slot stays empty. -/
theorem C5_cancel_before_send_not_honoured :
    (run (fun _ => true) (mk_call Action.accountQuery (some ()) true ":1.7" args0)
        [Label.invoke 0, Label.cancel, Label.exported "wl:1" 0]).map
      (fun p => (p.1.sent, p.1.outcome, decide (Ev.closeSent ∈ p.2),
                 decide (Ev.returnOutcome (Outcome.cancelled "Account canceled") ∈ p.2)))
    = some (true, none, false, false) := by decide

/-- C7 fails on the source at the save file entry: the five other entry
points substitute the empty parent handle when no parent is supplied and
proceed straight to identity allocation without exporting, but
xdp_portal_save_file leaves the handle unresolved with no parent record, and
its first step dereferences the absent parent — the run is undefined. -/
theorem C7_no_parent_save_file_derefs :
    run (fun _ => true) (mk_call Action.saveFile none false ":1.7" args0)
      [Label.invoke 0] = none ∧
    (mk_call Action.saveFile none false ":1.7" args0).parent_handle = none ∧
    (mk_call Action.accountQuery none false ":1.7" args0).parent_handle = some "" ∧
    (mk_call Action.composeEmail none false ":1.7" args0).parent_handle = some "" ∧
    (mk_call Action.openFile none false ":1.7" args0).parent_handle = some "" ∧
    (mk_call Action.screenshot none false ":1.7" args0).parent_handle = some "" ∧
    (mk_call Action.pickColor none false ":1.7" args0).parent_handle = some "" ∧
    ((run (fun _ => true) (mk_call Action.accountQuery none false ":1.7" args0)
        [Label.invoke 0]).map
      (fun p => (decide (Ev.exportParent ∈ p.2), decide (Ev.allocIdentity ∈ p.2))))
    = some (false, true) := by decide

/-- C10: the issuing step subscribes the listener on the derived request path
and places in the options, under handle_token, exactly the token that forms
the final segment of that same path. -/
theorem C10_handle_token_matches_subscription (op : String → Bool)
    (st st1 : CallState) (r : Nat) (ev : List Ev)
    (hsome : st.parent_handle.isSome = true)
    (h : do_call op st r = some (st1, ev)) :
    st1.subscribed_path = some (request_path_of st.sender r) ∧
    st1.request_path = st1.subscribed_path ∧
    (∃ opts, st1.sent_options = some opts ∧
      List.lookup "handle_token" opts = some (GVal.vs (token_string r))) ∧
    request_path_of st.sender r = REQUEST_PATH_ROOT ++ st.sender ++ "/" ++ token_string r := by
  unfold do_call at h
  split at h
  · rename_i heq
    rw [heq] at hsome
    simp at hsome
  · simp only [Option.some.injEq, Prod.mk.injEq] at h
    obtain ⟨hst, _⟩ := h
    subst hst
    refine ⟨rfl, rfl, ⟨_, rfl, ?_⟩, rfl⟩
    cases st.action <;> simp [build_options, List.lookup]

/-- The record of a pick color call after its issuing step at draw 0. -/
def c10_issued_state : CallState :=
  ⟨Action.pickColor, args0, ":1.7", false, some "",
   some "/org/freedesktop/portal/desktop/request/:1.7/portal0",
   some "/org/freedesktop/portal/desktop/request/:1.7/portal0",
   some [("handle_token", GVal.vs "portal0")],
   true, false, false, false, false, true, none, false, false⟩

/-- Witness for C10 at a concrete pick color issuing step. -/
theorem C10_handle_token_matches_subscription_witness :
    c10_issued_state.subscribed_path = some (request_path_of ":1.7" 0) ∧
    (∃ opts, c10_issued_state.sent_options = some opts ∧
      List.lookup "handle_token" opts = some (GVal.vs (token_string 0))) := by
  have h := C10_handle_token_matches_subscription (fun _ => true)
    (mk_call Action.pickColor none false ":1.7" args0) c10_issued_state 0
    [Ev.allocIdentity, Ev.subscribeListener, Ev.sendInvocation]
    (by decide) (by decide)
  exact ⟨h.1, h.2.2.1⟩

end Libportal
